import Mathlib

/-
Verification of the structural QR decoder in qrplots/qrplots.py.

A module grid is embedded as a function from row and column indices to the
integer cell codes the Python class uses.  The class only ever builds and
reads square grids of side N (N = len(self.data)), so every transform takes
the side length N explicitly and theorems quantify over cells with i < N and
j < N.  Each slice assignment of the Python source becomes one region
update; the region predicates are commented with the statement they embed.
The region arithmetic matches the Python slice semantics for N at least 21
(the version-1 minimum the data model guarantees), which is a hypothesis of
every theorem.

Fallible operations are embedded with Option and Except: the MASKS dict
lookup (Python KeyError on an id outside 0..7) returns none, and int(s, 2)
(Python ValueError unless every character is a binary digit) is parseBin,
which returns none unless every digit is below 2.
-/

namespace QRPlots

-- Cell codes, from the class constants of QRPlots.
def C_BACK : Nat := 0
def C_FRONT : Nat := 1
def C_FIX_BACK : Nat := 2
def C_FIX_FRONT : Nat := 3
def C_MASK : Nat := 4

abbrev Grid := Nat → Nat → Nat

-- The eight mask predicates of the MASKS class attribute.
def mask0 : Nat → Nat → Bool := fun i j => (i * j) % 2 + (i * j) % 3 == 0

def mask1 : Nat → Nat → Bool := fun i j => (i / 2 + j / 3) % 2 == 0

def mask2 : Nat → Nat → Bool := fun i j => ((i * j) % 3 + i + j) % 2 == 0

def mask3 : Nat → Nat → Bool := fun i j => ((i * j) % 3 + i * j) % 2 == 0

def mask4 : Nat → Nat → Bool := fun i _j => i % 2 == 0

def mask5 : Nat → Nat → Bool := fun i j => (i + j) % 2 == 0

def mask6 : Nat → Nat → Bool := fun i j => (i + j) % 3 == 0

def mask7 : Nat → Nat → Bool := fun _i j => j % 3 == 0

-- The MASKS dict keyed 0..7; a key outside that range raises KeyError,
-- embedded as none.
def MASKS : Nat → Option (Nat → Nat → Bool)
  | 0 => some mask0
  | 1 => some mask1
  | 2 => some mask2
  | 3 => some mask3
  | 4 => some mask4
  | 5 => some mask5
  | 6 => some mask6
  | 7 => some mask7
  | _ => none

-- The two abstract failure kinds of the class: the failed construction-time
-- codification-mode assertion, and the MASKS KeyError on a bad mask id.
inductive QRError where
  | UnsupportedEncodingMode : QRError
  | InvalidMaskId : QRError
deriving DecidableEq

-- One slice assignment of _color_fixed_pixels: on the region, a cell that
-- reads C_FRONT becomes C_FIX_FRONT, anything else becomes C_FIX_BACK.
def updFix (p : Nat → Nat → Prop) [∀ i j, Decidable (p i j)] (g : Grid) : Grid :=
  fun i j => if p i j then (if g i j = C_FRONT then C_FIX_FRONT else C_FIX_BACK) else g i j

-- One slice assignment of _color_cfg_pixels: the region is overwritten with
-- a constant value.
def updConst (p : Nat → Nat → Prop) [∀ i j, Decidable (p i j)] (v : Nat) (g : Grid) : Grid :=
  fun i j => if p i j then v else g i j

-- Regions of _color_fixed_pixels, in the order the source writes them.
-- for i in range(8): data[i][:8]
abbrev fixR1 (i j : Nat) : Prop := i < 8 ∧ j < 8

-- for i in range(8): data[i][-8:]
abbrev fixR2 (N i j : Nat) : Prop := i < 8 ∧ N - 8 ≤ j ∧ j < N

-- for i in range(8): data[-8 + i][:8]
abbrev fixR3 (N i j : Nat) : Prop := N - 8 ≤ i ∧ i < N ∧ j < 8

-- data[6][8:-8]
abbrev fixR4 (N i j : Nat) : Prop := i = 6 ∧ 8 ≤ j ∧ j < N - 8

-- for i in range(8, len(data) - 8): data[i][6]
abbrev fixR5 (N i j : Nat) : Prop := 8 ≤ i ∧ i < N - 8 ∧ j = 6

-- _color_fixed_pixels: the five conditional region recolorings in source
-- order, then the unconditional dark-module write data[-8][8] = C_FIX_FRONT.
def color_fixed_pixels (N : Nat) (g : Grid) : Grid :=
  fun i j =>
    if i = N - 8 ∧ j = 8 then C_FIX_FRONT
    else updFix (fixR5 N) (updFix (fixR4 N) (updFix (fixR3 N)
      (updFix (fixR2 N) (updFix fixR1 g)))) i j

-- Regions of _color_cfg_pixels, in the order the source writes them.
-- for i in range(9): data[i][:9]
abbrev cfgR1 (i j : Nat) : Prop := i < 9 ∧ j < 9

-- for i in range(9): data[i][-8:]
abbrev cfgR2 (N i j : Nat) : Prop := i < 9 ∧ N - 8 ≤ j ∧ j < N

-- for i in range(9): if i < 8: data[-8 + i][:8]
abbrev cfgR3 (N i j : Nat) : Prop := N - 8 ≤ i ∧ i < N ∧ j < 8

-- data[6][8:-8]
abbrev cfgR4 (N i j : Nat) : Prop := i = 6 ∧ 8 ≤ j ∧ j < N - 8

-- for i in range(9, len(data) - 8): data[i][6]
abbrev cfgR5 (N i j : Nat) : Prop := 9 ≤ i ∧ i < N - 8 ∧ j = 6

-- for i in range(8): data[-8 + i][8]
abbrev cfgR6 (N i j : Nat) : Prop := N - 8 ≤ i ∧ i < N ∧ j = 8

-- if hide_rb: for i in range(6): data[-6 + i][-2:]
abbrev hideRbRegion (N i j : Nat) : Prop := N - 6 ≤ i ∧ i < N ∧ N - 2 ≤ j ∧ j < N

-- The six unconditional writes of _color_cfg_pixels, in source order.
def cfg_core (N : Nat) (g : Grid) : Grid :=
  updConst (cfgR6 N) C_FIX_BACK (updConst (cfgR5 N) C_FIX_BACK (updConst (cfgR4 N) C_FIX_BACK
    (updConst (cfgR3 N) C_FIX_BACK (updConst (cfgR2 N) C_FIX_BACK
      (updConst cfgR1 C_FIX_BACK g)))))

-- _color_cfg_pixels: the six region writes, then the optional hide_rb write.
def color_cfg_pixels (N : Nat) (g : Grid) (hide_rb : Bool) : Grid :=
  if hide_rb then updConst (hideRbRegion N) C_FIX_BACK (cfg_core N g) else cfg_core N g

-- The body of _color_mask after the MASKS lookup succeeded: start from
-- _color_cfg_pixels of the source data, then classify every in-range cell
-- that is not already C_FIX_BACK.
def color_mask_grid (N : Nat) (g : Grid) (show_data : Bool) (mask_fun : Nat → Nat → Bool) :
    Grid :=
  fun i j =>
    if i < N ∧ j < N then
      if color_cfg_pixels N g false i j = C_FIX_BACK then color_cfg_pixels N g false i j
      else if mask_fun i j then C_MASK
      else if show_data then color_cfg_pixels N g false i j
      else C_BACK
    else color_cfg_pixels N g false i j

-- _color_mask with an explicit mask id: the dict lookup may fail.
def color_mask (N : Nat) (g : Grid) (show_data : Bool) (maskId : Nat) :
    Except QRError Grid :=
  match MASKS maskId with
  | none => Except.error QRError.InvalidMaskId
  | some mask_fun => Except.ok (color_mask_grid N g show_data mask_fun)

-- One data cell flip of _reverse_mask:
-- data[i][j] = C_BACK if data[i][j] == C_FRONT else C_FRONT.
def flipCell (v : Nat) : Nat := if v = C_FRONT then C_BACK else C_FRONT

-- The body of _reverse_mask after the MASKS lookup succeeded: flip every
-- in-range cell the mask overlay marked C_MASK.
def reverse_mask_grid (N : Nat) (g : Grid) (mask_fun : Nat → Nat → Bool) : Grid :=
  fun i j =>
    if (i < N ∧ j < N) ∧ color_mask_grid N g false mask_fun i j = C_MASK then flipCell (g i j)
    else g i j

-- _reverse_mask with an explicit mask id.
def reverse_mask (N : Nat) (g : Grid) (maskId : Nat) : Except QRError Grid :=
  match MASKS maskId with
  | none => Except.error QRError.InvalidMaskId
  | some mask_fun => Except.ok (reverse_mask_grid N g mask_fun)

-- Big-endian binary parse of a digit list, int("".join(...), 2).
def binToNat (l : List Nat) : Nat := l.foldl (fun acc b => 2 * acc + b) 0

-- int(s, 2) raises ValueError unless every character is a binary digit;
-- modelled on the list of single-digit values.
def parseBin (l : List Nat) : Option Nat :=
  if l.all (fun b => decide (b < 2)) then some (binToNat l) else none

-- mask_id: int of the explicit characters built from self.data[8][2:5];
-- the join writes a literal 1 or 0, so the parse never fails.
def mask_id (g : Grid) : Nat :=
  binToNat [if g 8 2 = C_FRONT then 1 else 0,
            if g 8 3 = C_FRONT then 1 else 0,
            if g 8 4 = C_FRONT then 1 else 0]

-- msg_len: the digits of data_rev[-6+i][-2:] for i in range(4), joined in
-- reading order, reversed end-to-end, then parsed base 2.
def msg_len (N : Nat) (g : Grid) : Option Nat :=
  parseBin (List.reverse
    [g (N - 6) (N - 2), g (N - 6) (N - 1),
     g (N - 5) (N - 2), g (N - 5) (N - 1),
     g (N - 4) (N - 2), g (N - 4) (N - 1),
     g (N - 3) (N - 2), g (N - 3) (N - 1)])

-- codification_mode: the digits of data_rev[-2][-2:] then data_rev[-1][-2:],
-- reversed, then parsed base 2.
def codification_mode (N : Nat) (g : Grid) : Option Nat :=
  parseBin (List.reverse
    [g (N - 2) (N - 2), g (N - 2) (N - 1),
     g (N - 1) (N - 2), g (N - 1) (N - 1)])

-- __init__ lines 37-39: map the encoder's boolean matrix to cell codes.
def rawToData (qr : Nat → Nat → Bool) : Grid :=
  fun i j => if qr i j then C_FRONT else C_BACK

structure QRState where
  N : Nat
  data : Grid
  data_rev : Grid

-- __init__ after the external encoder call: convert the matrix, compute the
-- cached demasked grid with the mask id read from the raw data, and assert
-- codification mode 4.
def mkQRPlots (N : Nat) (qr : Nat → Nat → Bool) : Except QRError QRState :=
  match reverse_mask N (rawToData qr) (mask_id (rawToData qr)) with
  | Except.error e => Except.error e
  | Except.ok dr =>
      if codification_mode N dr = some 4 then Except.ok ⟨N, rawToData qr, dr⟩
      else Except.error QRError.UnsupportedEncodingMode

-- The union of the regions _color_fixed_pixels recolors conditionally
-- (the dark module, written unconditionally, is kept separate).
abbrev fixFootprint (N i j : Nat) : Prop :=
  fixR1 i j ∨ fixR2 N i j ∨ fixR3 N i j ∨ fixR4 N i j ∨ fixR5 N i j

-- The union of the regions _color_cfg_pixels always forces to C_FIX_BACK.
abbrev cfgFootprint (N i j : Nat) : Prop :=
  cfgR1 i j ∨ cfgR2 N i j ∨ cfgR3 N i j ∨ cfgR4 N i j ∨ cfgR5 N i j ∨ cfgR6 N i j

-- A grid whose in-range cells all carry plain data values.
def dataValued (N : Nat) (g : Grid) : Prop :=
  ∀ i j, i < N → j < N → g i j = C_BACK ∨ g i j = C_FRONT

/-! Helper lemmas about the region combinators. -/

lemma updFix_pos {p : Nat → Nat → Prop} [∀ i j, Decidable (p i j)] {g : Grid} {i j : Nat}
    (h : p i j) : updFix p g i j = if g i j = C_FRONT then C_FIX_FRONT else C_FIX_BACK :=
  if_pos h

lemma updFix_neg {p : Nat → Nat → Prop} [∀ i j, Decidable (p i j)] {g : Grid} {i j : Nat}
    (h : ¬ p i j) : updFix p g i j = g i j :=
  if_neg h

lemma updConst_pos {p : Nat → Nat → Prop} [∀ i j, Decidable (p i j)] {v : Nat} {g : Grid}
    {i j : Nat} (h : p i j) : updConst p v g i j = v :=
  if_pos h

lemma updConst_neg {p : Nat → Nat → Prop} [∀ i j, Decidable (p i j)] {v : Nat} {g : Grid}
    {i j : Nat} (h : ¬ p i j) : updConst p v g i j = g i j :=
  if_neg h

lemma updConst_of_inner {p : Nat → Nat → Prop} [∀ i j, Decidable (p i j)] {v : Nat}
    {g : Grid} {i j : Nat} (h : g i j = v) : updConst p v g i j = v := by
  unfold updConst
  by_cases hp : p i j
  · rw [if_pos hp]
  · rw [if_neg hp]
    exact h

/-- Pointwise description of _color_fixed_pixels: the dark module is forced
to C_FIX_FRONT, cells of the conditional footprint are recolored according
to their data value, and every other cell is untouched. -/
lemma color_fixed_pixels_eq (N : Nat) (g : Grid) (hN : 21 ≤ N) (i j : Nat) :
    color_fixed_pixels N g i j =
      if i = N - 8 ∧ j = 8 then C_FIX_FRONT
      else if fixFootprint N i j then (if g i j = C_FRONT then C_FIX_FRONT else C_FIX_BACK)
      else g i j := by
  unfold color_fixed_pixels
  by_cases hd : i = N - 8 ∧ j = 8
  · rw [if_pos hd, if_pos hd]
  rw [if_neg hd, if_neg hd]
  by_cases h1 : fixR1 i j
  · rw [updFix_neg (p := fixR5 N) (by omega), updFix_neg (p := fixR4 N) (by omega),
      updFix_neg (p := fixR3 N) (by omega), updFix_neg (p := fixR2 N) (by omega),
      updFix_pos h1, if_pos (show fixFootprint N i j from Or.inl h1)]
  by_cases h2 : fixR2 N i j
  · rw [updFix_neg (p := fixR5 N) (by omega), updFix_neg (p := fixR4 N) (by omega),
      updFix_neg (p := fixR3 N) (by omega), updFix_pos h2, updFix_neg h1,
      if_pos (show fixFootprint N i j from Or.inr (Or.inl h2))]
  by_cases h3 : fixR3 N i j
  · rw [updFix_neg (p := fixR5 N) (by omega), updFix_neg (p := fixR4 N) (by omega),
      updFix_pos h3, updFix_neg h2, updFix_neg h1,
      if_pos (show fixFootprint N i j from Or.inr (Or.inr (Or.inl h3)))]
  by_cases h4 : fixR4 N i j
  · rw [updFix_neg (p := fixR5 N) (by omega), updFix_pos h4, updFix_neg h3, updFix_neg h2,
      updFix_neg h1, if_pos (show fixFootprint N i j from Or.inr (Or.inr (Or.inr (Or.inl h4))))]
  by_cases h5 : fixR5 N i j
  · rw [updFix_pos h5, updFix_neg h4, updFix_neg h3, updFix_neg h2, updFix_neg h1,
      if_pos (show fixFootprint N i j from Or.inr (Or.inr (Or.inr (Or.inr h5))))]
  rw [updFix_neg h5, updFix_neg h4, updFix_neg h3, updFix_neg h2, updFix_neg h1,
    if_neg (show ¬ fixFootprint N i j by
      rintro (h | h | h | h | h) <;>
        first | exact h1 h | exact h2 h | exact h3 h | exact h4 h | exact h5 h)]

/-- Pointwise description of the six unconditional writes of
_color_cfg_pixels. -/
lemma cfg_core_eq (N : Nat) (g : Grid) (i j : Nat) :
    cfg_core N g i j = if cfgFootprint N i j then C_FIX_BACK else g i j := by
  unfold cfg_core
  by_cases hfp : cfgFootprint N i j
  · rw [if_pos hfp]
    rcases hfp with h | h | h | h | h | h
    · exact updConst_of_inner (updConst_of_inner (updConst_of_inner (updConst_of_inner
        (updConst_of_inner (updConst_pos h)))))
    · exact updConst_of_inner (updConst_of_inner (updConst_of_inner (updConst_of_inner
        (updConst_pos h))))
    · exact updConst_of_inner (updConst_of_inner (updConst_of_inner (updConst_pos h)))
    · exact updConst_of_inner (updConst_of_inner (updConst_pos h))
    · exact updConst_of_inner (updConst_pos h)
    · exact updConst_pos h
  · rw [if_neg hfp]
    rw [updConst_neg (fun h => hfp (Or.inr (Or.inr (Or.inr (Or.inr (Or.inr h)))))),
      updConst_neg (fun h => hfp (Or.inr (Or.inr (Or.inr (Or.inr (Or.inl h)))))),
      updConst_neg (fun h => hfp (Or.inr (Or.inr (Or.inr (Or.inl h))))),
      updConst_neg (fun h => hfp (Or.inr (Or.inr (Or.inl h)))),
      updConst_neg (fun h => hfp (Or.inr (Or.inl h))),
      updConst_neg (fun h => hfp (Or.inl h))]

/-- Pointwise description of _color_cfg_pixels including the optional
hide_rb write. -/
lemma color_cfg_pixels_eq (N : Nat) (g : Grid) (hide_rb : Bool) (i j : Nat) :
    color_cfg_pixels N g hide_rb i j =
      if cfgFootprint N i j then C_FIX_BACK
      else if hide_rb = true ∧ hideRbRegion N i j then C_FIX_BACK
      else g i j := by
  unfold color_cfg_pixels
  cases hide_rb
  · rw [if_neg (show ¬ (false = true) by simp), cfg_core_eq]
    simp
  · rw [if_pos rfl]
    by_cases hh : hideRbRegion N i j
    · rw [updConst_pos hh]
      by_cases hfp : cfgFootprint N i j
      · rw [if_pos hfp]
      · rw [if_neg hfp, if_pos (show true = true ∧ hideRbRegion N i j from ⟨rfl, hh⟩)]
    · rw [updConst_neg hh, cfg_core_eq]
      by_cases hfp : cfgFootprint N i j
      · rw [if_pos hfp, if_pos hfp]
      · rw [if_neg hfp, if_neg hfp,
          if_neg (show ¬ (true = true ∧ hideRbRegion N i j) from fun hc => hh hc.2)]

/-! Helper lemmas about the mask table and the mask transforms. -/

lemma MASKS_eq_some {m : Nat} (hm : m < 8) : ∃ f, MASKS m = some f := by
  interval_cases m <;> exact ⟨_, rfl⟩

lemma MASKS_eq_none {m : Nat} (hm : ¬ m < 8) : MASKS m = none := by
  obtain ⟨k, rfl⟩ : ∃ k, m = k + 8 := ⟨m - 8, by omega⟩
  rfl

lemma dataValued_ne_fix_back {N : Nat} {g : Grid} (hg : dataValued N g) {i j : Nat}
    (hi : i < N) (hj : j < N) : g i j ≠ C_FIX_BACK := by
  rcases hg i j hi hj with h | h <;> rw [h] <;> simp [C_BACK, C_FRONT, C_FIX_BACK]

/-- Pointwise description of the mask overlay _color_mask builds for the
demasking pass (show_data false), at an in-range cell of a data-valued
grid. -/
lemma color_mask_grid_cell {N : Nat} {g : Grid} (f : Nat → Nat → Bool) (hg : dataValued N g)
    {i j : Nat} (hi : i < N) (hj : j < N) :
    color_mask_grid N g false f i j =
      if cfgFootprint N i j then C_FIX_BACK else if f i j then C_MASK else C_BACK := by
  unfold color_mask_grid
  rw [if_pos ⟨hi, hj⟩, color_cfg_pixels_eq]
  rw [if_neg (show ¬ (false = true ∧ hideRbRegion N i j) from fun hc =>
    Bool.false_ne_true hc.1)]
  by_cases hfp : cfgFootprint N i j
  · rw [if_pos hfp, if_pos rfl, if_pos hfp]
  · rw [if_neg hfp, if_neg hfp, if_neg (dataValued_ne_fix_back hg hi hj)]
    by_cases hf : f i j
    · rw [if_pos hf, if_pos hf]
    · rw [if_neg hf, if_neg hf, if_neg (show ¬ (false = true) by simp)]

/-- A cell of the overlay is C_MASK exactly when it is outside the
configuration footprint and the mask predicate holds there. -/
lemma color_mask_grid_eq_mask {N : Nat} {g : Grid} {f : Nat → Nat → Bool}
    (hg : dataValued N g) {i j : Nat} (hi : i < N) (hj : j < N) :
    color_mask_grid N g false f i j = C_MASK ↔ ¬ cfgFootprint N i j ∧ f i j = true := by
  rw [color_mask_grid_cell f hg hi hj]
  by_cases hfp : cfgFootprint N i j <;> by_cases hf : f i j <;>
    simp [hfp, hf, C_FIX_BACK, C_MASK, C_BACK]

/-- Pointwise description of the demasking flip at an in-range cell. -/
lemma reverse_mask_grid_cell {N : Nat} {g : Grid} {f : Nat → Nat → Bool}
    (hg : dataValued N g) {i j : Nat} (hi : i < N) (hj : j < N) :
    reverse_mask_grid N g f i j =
      if ¬ cfgFootprint N i j ∧ f i j = true then flipCell (g i j) else g i j := by
  unfold reverse_mask_grid
  by_cases hc : ¬ cfgFootprint N i j ∧ f i j = true
  · rw [if_pos ⟨⟨hi, hj⟩, (color_mask_grid_eq_mask hg hi hj).mpr hc⟩, if_pos hc]
  · rw [if_neg (fun hh => hc ((color_mask_grid_eq_mask hg hi hj).mp hh.2)), if_neg hc]

lemma reverse_mask_grid_out {N : Nat} {g : Grid} {f : Nat → Nat → Bool} {i j : Nat}
    (h : ¬ (i < N ∧ j < N)) : reverse_mask_grid N g f i j = g i j := by
  unfold reverse_mask_grid
  exact if_neg (fun hh => h hh.1)

lemma flipCell_data {v : Nat} (h : v = C_BACK ∨ v = C_FRONT) :
    (flipCell v = C_BACK ∨ flipCell v = C_FRONT) ∧ flipCell (flipCell v) = v := by
  rcases h with h | h <;> rw [h] <;> exact (by decide)

/-- Demasking preserves data-valuedness. -/
lemma reverse_mask_grid_dataValued {N : Nat} {g : Grid} {f : Nat → Nat → Bool}
    (hg : dataValued N g) : dataValued N (reverse_mask_grid N g f) := by
  intro i j hi hj
  rw [reverse_mask_grid_cell hg hi hj]
  by_cases hc : ¬ cfgFootprint N i j ∧ f i j = true
  · rw [if_pos hc]
    exact (flipCell_data (hg i j hi hj)).1
  · rw [if_neg hc]
    exact hg i j hi hj

/-! Helper lemmas about the bit-string parses. -/

lemma dataValued_lt_two {v : Nat} (h : v = C_BACK ∨ v = C_FRONT) : v < 2 := by
  rcases h with h | h <;> rw [h] <;> decide

lemma bit_of_dataValued {v : Nat} (h : v = C_BACK ∨ v = C_FRONT) :
    (if v = C_FRONT then 1 else 0) = v := by
  rcases h with h | h <;> rw [h] <;> decide

lemma parseBin_of_bits {l : List Nat} (h : ∀ x ∈ l, x < 2) :
    parseBin l = some (binToNat l) := by
  unfold parseBin
  rw [if_pos ?_]
  simp only [List.all_eq_true, decide_eq_true_eq]
  exact h

lemma binToNat_reverse8 (b0 b1 b2 b3 b4 b5 b6 b7 : Nat) :
    binToNat (List.reverse [b0, b1, b2, b3, b4, b5, b6, b7]) =
      b0 + 2 * b1 + 4 * b2 + 8 * b3 + 16 * b4 + 32 * b5 + 64 * b6 + 128 * b7 := by
  simp [binToNat, List.reverse_cons, List.reverse_nil, List.foldl_append, List.foldl]
  ring

lemma binToNat_reverse4 (b0 b1 b2 b3 : Nat) :
    binToNat (List.reverse [b0, b1, b2, b3]) = b0 + 2 * b1 + 4 * b2 + 8 * b3 := by
  simp [binToNat, List.reverse_cons, List.reverse_nil, List.foldl_append, List.foldl]
  ring

lemma binToNat3 (b0 b1 b2 : Nat) : binToNat [b0, b1, b2] = 4 * b0 + 2 * b1 + b2 := by
  simp [binToNat]
  ring

/-- In-range cells of a data-valued grid, with the bounds needed by the field
extractors, packaged for reuse. -/
lemma dataValued_cell {N : Nat} {g : Grid} (hg : dataValued N g) {a b : Nat}
    (ha : a < N) (hb : b < N) :
    g a b < 2 ∧ (if g a b = C_FRONT then 1 else 0) = g a b :=
  ⟨dataValued_lt_two (hg a b ha hb), bit_of_dataValued (hg a b ha hb)⟩

-- A concrete data-valued checkerboard grid used by the witnesses.
def gEx : Grid := fun i j => (i + j) % 2

lemma gEx_dataValued (N : Nat) : dataValued N gEx := by
  intro i j _ _
  unfold gEx C_BACK C_FRONT
  omega

/-! Claim theorems. -/

/-- C6: mask_id returns the 3-bit big-endian integer formed by cells (8,2),
(8,3), (8,4) of the given (raw) grid read left to right with C_FRONT as 1
and anything else as 0, and is therefore always below 8. -/
theorem mask_id_value (g : Grid) :
    mask_id g =
      4 * (if g 8 2 = C_FRONT then 1 else 0) + 2 * (if g 8 3 = C_FRONT then 1 else 0) +
        (if g 8 4 = C_FRONT then 1 else 0) ∧
    mask_id g < 8 := by
  unfold mask_id
  rw [binToNat3]
  refine ⟨rfl, ?_⟩
  by_cases h2 : g 8 2 = C_FRONT <;> by_cases h3 : g 8 3 = C_FRONT <;>
    by_cases h4 : g 8 4 = C_FRONT <;> simp [h2, h3, h4]

/-- C4: on a data-valued grid, msg_len returns the integer obtained by
reading the two trailing cells of rows N-6, N-5, N-4, N-3 in row order,
concatenating them into an 8-bit string, reversing it end to end and
parsing big-endian: equivalently the little-endian weighted sum below. -/
theorem msg_len_value (N : Nat) (g : Grid) (hN : 21 ≤ N) (hg : dataValued N g) :
    msg_len N g = some (
      (if g (N - 6) (N - 2) = C_FRONT then 1 else 0) +
      2 * (if g (N - 6) (N - 1) = C_FRONT then 1 else 0) +
      4 * (if g (N - 5) (N - 2) = C_FRONT then 1 else 0) +
      8 * (if g (N - 5) (N - 1) = C_FRONT then 1 else 0) +
      16 * (if g (N - 4) (N - 2) = C_FRONT then 1 else 0) +
      32 * (if g (N - 4) (N - 1) = C_FRONT then 1 else 0) +
      64 * (if g (N - 3) (N - 2) = C_FRONT then 1 else 0) +
      128 * (if g (N - 3) (N - 1) = C_FRONT then 1 else 0)) := by
  have e1 := dataValued_cell hg (show N - 6 < N by omega) (show N - 2 < N by omega)
  have e2 := dataValued_cell hg (show N - 6 < N by omega) (show N - 1 < N by omega)
  have e3 := dataValued_cell hg (show N - 5 < N by omega) (show N - 2 < N by omega)
  have e4 := dataValued_cell hg (show N - 5 < N by omega) (show N - 1 < N by omega)
  have e5 := dataValued_cell hg (show N - 4 < N by omega) (show N - 2 < N by omega)
  have e6 := dataValued_cell hg (show N - 4 < N by omega) (show N - 1 < N by omega)
  have e7 := dataValued_cell hg (show N - 3 < N by omega) (show N - 2 < N by omega)
  have e8 := dataValued_cell hg (show N - 3 < N by omega) (show N - 1 < N by omega)
  unfold msg_len
  rw [parseBin_of_bits, binToNat_reverse8,
    e1.2, e2.2, e3.2, e4.2, e5.2, e6.2, e7.2, e8.2]
  intro x hx
  rw [List.mem_reverse] at hx
  fin_cases hx
  · exact e1.1
  · exact e2.1
  · exact e3.1
  · exact e4.1
  · exact e5.1
  · exact e6.1
  · exact e7.1
  · exact e8.1

/-- C5: on a data-valued grid, codification_mode returns the integer read
from the two trailing cells of rows N-2 and N-1 (in that row order),
reversed and parsed big-endian, and the value is always below 16. -/
theorem codification_mode_value (N : Nat) (g : Grid) (hN : 21 ≤ N) (hg : dataValued N g) :
    ∃ v, codification_mode N g = some v ∧ v < 16 ∧
      v = (if g (N - 2) (N - 2) = C_FRONT then 1 else 0) +
        2 * (if g (N - 2) (N - 1) = C_FRONT then 1 else 0) +
        4 * (if g (N - 1) (N - 2) = C_FRONT then 1 else 0) +
        8 * (if g (N - 1) (N - 1) = C_FRONT then 1 else 0) := by
  have e1 := dataValued_cell hg (show N - 2 < N by omega) (show N - 2 < N by omega)
  have e2 := dataValued_cell hg (show N - 2 < N by omega) (show N - 1 < N by omega)
  have e3 := dataValued_cell hg (show N - 1 < N by omega) (show N - 2 < N by omega)
  have e4 := dataValued_cell hg (show N - 1 < N by omega) (show N - 1 < N by omega)
  refine ⟨_, ?_, ?_, rfl⟩
  · unfold codification_mode
    rw [parseBin_of_bits, binToNat_reverse4, e1.2, e2.2, e3.2, e4.2]
    intro x hx
    rw [List.mem_reverse] at hx
    fin_cases hx
    · exact e1.1
    · exact e2.1
    · exact e3.1
    · exact e4.1
  · by_cases h1 : g (N - 2) (N - 2) = C_FRONT <;> by_cases h2 : g (N - 2) (N - 1) = C_FRONT <;>
      by_cases h3 : g (N - 1) (N - 2) = C_FRONT <;>
      by_cases h4 : g (N - 1) (N - 1) = C_FRONT <;> simp [h1, h2, h3, h4]

/-- C9: a caller-supplied mask id outside 0..7 makes both _color_mask and
_reverse_mask fail with the InvalidMaskId error (the MASKS dict has no such
key) instead of returning a grid. -/
theorem color_mask_invalid_id (N : Nat) (g : Grid) (show_data : Bool) (m : Nat)
    (hm : ¬ m < 8) :
    color_mask N g show_data m = Except.error QRError.InvalidMaskId ∧
    reverse_mask N g m = Except.error QRError.InvalidMaskId := by
  unfold color_mask reverse_mask
  rw [MASKS_eq_none hm]
  exact ⟨rfl, rfl⟩

/-- C2: for a valid mask id and a data-valued N by N grid, _reverse_mask
succeeds and flips exactly the in-range cells that are not forced to
C_FIX_BACK by _color_cfg_pixels and satisfy the selected mask predicate;
every other cell equals the source cell. -/
theorem reverse_mask_flips_masked_cells (N m : Nat) (g : Grid) (hN : 21 ≤ N) (hm : m < 8)
    (hg : dataValued N g) :
    ∃ f g2, MASKS m = some f ∧ reverse_mask N g m = Except.ok g2 ∧
      ∀ i j, i < N → j < N →
        g2 i j =
          if color_cfg_pixels N g false i j ≠ C_FIX_BACK ∧ f i j = true then
            (if g i j = C_FRONT then C_BACK else C_FRONT)
          else g i j := by
  obtain ⟨f, hf⟩ := MASKS_eq_some hm
  refine ⟨f, reverse_mask_grid N g f, hf, ?_, ?_⟩
  · unfold reverse_mask
    rw [hf]
  · intro i j hi hj
    have hiff : (color_cfg_pixels N g false i j ≠ C_FIX_BACK) ↔ ¬ cfgFootprint N i j := by
      rw [color_cfg_pixels_eq,
        if_neg (show ¬ (false = true ∧ hideRbRegion N i j) from fun hc =>
          Bool.false_ne_true hc.1)]
      by_cases hfp : cfgFootprint N i j
      · simp [hfp]
      · simp [hfp, dataValued_ne_fix_back hg hi hj]
    rw [reverse_mask_grid_cell hg hi hj]
    by_cases hc : ¬ cfgFootprint N i j ∧ f i j = true
    · rw [if_pos hc, if_pos ⟨hiff.mpr hc.1, hc.2⟩]
      rfl
    · rw [if_neg hc, if_neg (fun hcc => hc ⟨hiff.mp hcc.1, hcc.2⟩)]

/-- C3: demasking twice with the same valid mask id restores every in-range
cell of a data-valued grid: the mask flip is an involution. -/
theorem reverse_mask_involution (N m : Nat) (g : Grid) (hN : 21 ≤ N) (hm : m < 8)
    (hg : dataValued N g) :
    ∃ g1 g2, reverse_mask N g m = Except.ok g1 ∧ reverse_mask N g1 m = Except.ok g2 ∧
      ∀ i j, i < N → j < N → g2 i j = g i j := by
  obtain ⟨f, hf⟩ := MASKS_eq_some hm
  have hg1 : dataValued N (reverse_mask_grid N g f) := reverse_mask_grid_dataValued hg
  refine ⟨reverse_mask_grid N g f, reverse_mask_grid N (reverse_mask_grid N g f) f,
    ?_, ?_, ?_⟩
  · unfold reverse_mask
    rw [hf]
  · unfold reverse_mask
    rw [hf]
  · intro i j hi hj
    rw [reverse_mask_grid_cell hg1 hi hj, reverse_mask_grid_cell hg hi hj]
    by_cases hc : ¬ cfgFootprint N i j ∧ f i j = true
    · rw [if_pos hc, if_pos hc]
      exact (flipCell_data (hg i j hi hj)).2
    · rw [if_neg hc, if_neg hc]

/-- C10: for a data-valued grid and a valid mask id, the demasked grid is
data-valued on the same N by N range, untouched outside it, and the bit
strings read by msg_len and codification_mode therefore parse successfully. -/
theorem reverse_mask_datavalued (N m : Nat) (g : Grid) (hN : 21 ≤ N) (hm : m < 8)
    (hg : dataValued N g) :
    ∃ g2, reverse_mask N g m = Except.ok g2 ∧ dataValued N g2 ∧
      (∀ i j, ¬ (i < N ∧ j < N) → g2 i j = g i j) ∧
      (∃ v, msg_len N g2 = some v) ∧ (∃ v, codification_mode N g2 = some v) := by
  obtain ⟨f, hf⟩ := MASKS_eq_some hm
  have hg2 : dataValued N (reverse_mask_grid N g f) := reverse_mask_grid_dataValued hg
  refine ⟨reverse_mask_grid N g f, ?_, hg2, fun i j h => reverse_mask_grid_out h, ?_, ?_⟩
  · unfold reverse_mask
    rw [hf]
  · unfold msg_len
    exact ⟨_, parseBin_of_bits (by
      intro x hx
      rw [List.mem_reverse] at hx
      fin_cases hx <;> exact (dataValued_cell hg2 (by omega) (by omega)).1)⟩
  · unfold codification_mode
    exact ⟨_, parseBin_of_bits (by
      intro x hx
      rw [List.mem_reverse] at hx
      fin_cases hx <;> exact (dataValued_cell hg2 (by omega) (by omega)).1)⟩

/-- C7 counterexample: on the all-C_BACK 21 by 21 grid the dark module
(13, 8) = (N-8, 8) lies inside the claimed footprint and holds C_BACK, yet
_color_fixed_pixels recolors it to C_FIX_FRONT, not C_FIX_BACK: the claimed
C_BACK-to-C_FIX_BACK mapping fails there. -/
theorem color_fixed_pixels_dark_module_cex :
    color_fixed_pixels 21 (fun _i _j => C_BACK) 13 8 = C_FIX_FRONT ∧
    C_FIX_FRONT ≠ C_FIX_BACK := by
  decide

/-- C7 amended: _color_fixed_pixels recolors the conditional footprint
according to the cell's data value, forces the dark module (N-8, 8) to
C_FIX_FRONT regardless of its value, and leaves every other cell equal to
the source. -/
theorem color_fixed_pixels_footprint (N : Nat) (g : Grid) (hN : 21 ≤ N)
    (hg : dataValued N g) :
    ∀ i j, i < N → j < N →
      (i = N - 8 ∧ j = 8 → color_fixed_pixels N g i j = C_FIX_FRONT) ∧
      (¬ (i = N - 8 ∧ j = 8) → fixFootprint N i j →
        color_fixed_pixels N g i j = (if g i j = C_FRONT then C_FIX_FRONT else C_FIX_BACK)) ∧
      (¬ (i = N - 8 ∧ j = 8) → ¬ fixFootprint N i j →
        color_fixed_pixels N g i j = g i j) := by
  intro i j hi hj
  rw [color_fixed_pixels_eq N g hN i j]
  refine ⟨fun hd => ?_, fun hd hfp => ?_, fun hd hfp => ?_⟩
  · rw [if_pos hd]
  · rw [if_neg hd, if_pos hfp]
  · rw [if_neg hd, if_neg hfp]

/-- C8: _color_cfg_pixels forces every cell of its footprint to C_FIX_BACK
regardless of the data value, additionally forces the last two columns of
the bottom six rows when hide_rb is set, and leaves every other cell equal
to the source. -/
theorem color_cfg_pixels_footprint (N : Nat) (g : Grid) (hide_rb : Bool) (hN : 21 ≤ N) :
    ∀ i j, i < N → j < N →
      (cfgFootprint N i j → color_cfg_pixels N g hide_rb i j = C_FIX_BACK) ∧
      (hide_rb = true → hideRbRegion N i j → color_cfg_pixels N g hide_rb i j = C_FIX_BACK) ∧
      (¬ cfgFootprint N i j → ¬ (hide_rb = true ∧ hideRbRegion N i j) →
        color_cfg_pixels N g hide_rb i j = g i j) := by
  intro i j hi hj
  rw [color_cfg_pixels_eq N g hide_rb i j]
  refine ⟨fun hfp => ?_, fun hb hh => ?_, fun hfp hh => ?_⟩
  · rw [if_pos hfp]
  · by_cases hfp : cfgFootprint N i j
    · rw [if_pos hfp]
    · rw [if_neg hfp, if_pos ⟨hb, hh⟩]
  · rw [if_neg hfp, if_neg hh]

/-- C1: construction converts the encoder matrix, demasks it with the mask
id read from the raw data, and asserts byte mode: if construction succeeds
the stored demasked grid decodes to codification mode 4, and if the
demasked grid's mode field is anything else construction fails with
UnsupportedEncodingMode. -/
theorem qrplots_construction_byte_mode (N : Nat) (qr : Nat → Nat → Bool) :
    (∀ st, mkQRPlots N qr = Except.ok st →
      codification_mode st.N st.data_rev = some 4) ∧
    (∀ dr, reverse_mask N (rawToData qr) (mask_id (rawToData qr)) = Except.ok dr →
      codification_mode N dr ≠ some 4 →
      mkQRPlots N qr = Except.error QRError.UnsupportedEncodingMode) := by
  constructor
  · intro st h
    unfold mkQRPlots at h
    split at h
    · exact Except.noConfusion h
    · split at h
      · cases h
        assumption
      · exact Except.noConfusion h
  · intro dr hdr hne
    unfold mkQRPlots
    rw [hdr]
    show (if codification_mode N dr = some 4 then
        Except.ok (⟨N, rawToData qr, dr⟩ : QRState)
      else Except.error QRError.UnsupportedEncodingMode) =
      Except.error QRError.UnsupportedEncodingMode
    rw [if_neg hne]

/-! Witnesses: each one applies its claim theorem at a concrete input and
evaluates the conclusion there. -/

/-- Witness for C4 on the checkerboard grid at N = 21. -/
theorem msg_len_value_witness : msg_len 21 gEx = some 102 := by
  have h := msg_len_value 21 gEx (by omega) (gEx_dataValued 21)
  rw [h]
  decide

/-- Witness for C5 on the checkerboard grid at N = 21. -/
theorem codification_mode_value_witness : codification_mode 21 gEx = some 6 := by
  obtain ⟨v, hv, _, hval⟩ := codification_mode_value 21 gEx (by omega) (gEx_dataValued 21)
  rw [hv, hval]
  decide

/-- Witness for C9 at the out-of-range mask id 8. -/
theorem color_mask_invalid_id_witness :
    color_mask 21 gEx false 8 = Except.error QRError.InvalidMaskId ∧
    reverse_mask 21 gEx 8 = Except.error QRError.InvalidMaskId :=
  color_mask_invalid_id 21 gEx false 8 (by omega)

/-- Witness for C2: demasking the checkerboard with mask 5 flips the
maskable cell (9, 9) from C_BACK to C_FRONT. -/
theorem reverse_mask_flips_masked_cells_witness :
    ∃ f g2, MASKS 5 = some f ∧ reverse_mask 21 gEx 5 = Except.ok g2 ∧ g2 9 9 = C_FRONT := by
  obtain ⟨f, g2, hf, hok, hc⟩ :=
    reverse_mask_flips_masked_cells 21 5 gEx (by omega) (by omega) (gEx_dataValued 21)
  refine ⟨f, g2, hf, hok, ?_⟩
  have hfm : f = mask5 := by
    have hsome : some mask5 = some f := hf
    exact (Option.some.inj hsome).symm
  subst hfm
  rw [hc 9 9 (by omega) (by omega)]
  decide

/-- Witness for C3 on the checkerboard grid with mask 5 at cell (9, 9). -/
theorem reverse_mask_involution_witness :
    ∃ g1 g2, reverse_mask 21 gEx 5 = Except.ok g1 ∧ reverse_mask 21 g1 5 = Except.ok g2 ∧
      g2 9 9 = gEx 9 9 := by
  obtain ⟨g1, g2, h1, h2, h3⟩ :=
    reverse_mask_involution 21 5 gEx (by omega) (by omega) (gEx_dataValued 21)
  exact ⟨g1, g2, h1, h2, h3 9 9 (by omega) (by omega)⟩

/-- Witness for C10 on the checkerboard grid with mask 5. -/
theorem reverse_mask_datavalued_witness :
    ∃ g2, reverse_mask 21 gEx 5 = Except.ok g2 ∧
      (g2 9 9 = C_BACK ∨ g2 9 9 = C_FRONT) ∧
      (∃ v, msg_len 21 g2 = some v) ∧ ∃ v, codification_mode 21 g2 = some v := by
  obtain ⟨g2, hok, hdv, _hout, hm, hc⟩ :=
    reverse_mask_datavalued 21 5 gEx (by omega) (by omega) (gEx_dataValued 21)
  exact ⟨g2, hok, hdv 9 9 (by omega) (by omega), hm, hc⟩

/-- Witness for C7 amended: the dark module, one finder cell and one plain
data cell of the checkerboard at N = 21. -/
theorem color_fixed_pixels_footprint_witness :
    color_fixed_pixels 21 gEx 13 8 = C_FIX_FRONT ∧
    color_fixed_pixels 21 gEx 0 0 = C_FIX_BACK ∧
    color_fixed_pixels 21 gEx 9 9 = gEx 9 9 := by
  have h := color_fixed_pixels_footprint 21 gEx (by omega) (gEx_dataValued 21)
  refine ⟨(h 13 8 (by omega) (by omega)).1 ⟨rfl, rfl⟩, ?_, ?_⟩
  · rw [(h 0 0 (by omega) (by omega)).2.1 (by omega) (Or.inl (by omega))]
    decide
  · exact (h 9 9 (by omega) (by omega)).2.2 (by omega) (by omega)

/-- Witness for C8: a footprint cell, a hide_rb cell and a plain data cell
of the checkerboard at N = 21. -/
theorem color_cfg_pixels_footprint_witness :
    color_cfg_pixels 21 gEx true 0 0 = C_FIX_BACK ∧
    color_cfg_pixels 21 gEx true 19 20 = C_FIX_BACK ∧
    color_cfg_pixels 21 gEx true 9 9 = gEx 9 9 := by
  have h := color_cfg_pixels_footprint 21 gEx true (by omega)
  refine ⟨(h 0 0 (by omega) (by omega)).1 (Or.inl (by omega)),
    (h 19 20 (by omega) (by omega)).2.1 rfl (by omega),
    (h 9 9 (by omega) (by omega)).2.2 (by omega) (fun hc => absurd hc.2 (by omega))⟩

/-- Witness for C1: the all-unset matrix demasks to mode 0, so construction
fails with UnsupportedEncodingMode. -/
theorem qrplots_construction_byte_mode_witness :
    mkQRPlots 21 (fun _i _j => false) = Except.error QRError.UnsupportedEncodingMode := by
  have h := (qrplots_construction_byte_mode 21 (fun _i _j => false)).2
  refine h (reverse_mask_grid 21 (rawToData (fun _i _j => false)) mask0) ?_ ?_
  · rfl
  · decide

end QRPlots
